import Mathlib

/-!
Verification of the muenzbox backend (coin-gated device access for a household).

The definitions below are a shallow embedding of the Python sources:
  * `backend/time_utils.py`   — time-window policy
  * `backend/routes/sessions.py` — session admission (`start_session`)
  * `backend/routes/admin.py` — admin coin adjustment and child update
  * `backend/scheduler.py`    — weekly refill and expiry sweep
  * `backend/adapters/__init__.py`, `backend/adapters/fritzbox.py`,
    `backend/adapters/mikrotik_direct.py`, `backend/adapters/nintendo.py`
    — device-control adapter layer

Conventions of the embedding:
  * SQLite rows become Lean structures; tables become lists; a request
    handler becomes a function `DB → … → DB × ReqResult α` where the first
    component is the committed database after the call.
  * Timestamps (ISO-8601 UTC strings in the code, compared lexicographically
    by SQLite, hence chronologically) are modelled as `Int` minutes.
  * The wall clock (`datetime.now()`) and calendar classification
    (`is_weekend_or_holiday`) are passed as explicit parameters.
  * Adapter HTTP traffic is abstracted by oracle environments; functions
    that catch every exception and return a boolean (mikrotik_direct.py,
    nintendo.py) are modelled as boolean oracles, while control flow that
    the adapter code branches on (fritzbox.py) is modelled step by step.
-/

namespace Muenzbox

/-- Device category: the literal strings "switch" / "tv" used throughout the
code (`body.type`, the `type` columns, the `f"{body.type}_coins"` fields). -/
inductive DType where
  | switch
  | tv
deriving DecidableEq, Repr

/-- Session status column: 'active' | 'completed' | 'cancelled'. -/
inductive SStatus where
  | active
  | completed
  | cancelled
deriving DecidableEq, Repr

/-- A time interval as stored in `allowed_periods` / `weekend_periods`
(JSON objects with "von"/"bis" strings "HH:MM"); already split into hour and
minute as `_parse_time` (time_utils.py:15) does. -/
structure Period where
  vonH : Nat
  vonM : Nat
  bisH : Nat
  bisM : Nat
deriving DecidableEq, Repr

/-- Interval start in minutes since midnight (`fh * 60 + fm`, time_utils.py:27). -/
def Period.vonMin (p : Period) : Nat := p.vonH * 60 + p.vonM

/-- Interval end in minutes since midnight (`uh * 60 + um`, time_utils.py:27). -/
def Period.bisMin (p : Period) : Nat := p.bisH * 60 + p.bisM

/-- `_FALLBACK = [{"von": "08:00", "bis": "20:00"}]` (time_utils.py:4,
sessions.py:17, admin.py:13). -/
def fallbackPeriods : List Period := [⟨8, 0, 20, 0⟩]

/-- `is_in_periods` (time_utils.py:20-29): true iff the current time
(minutes since midnight, from `datetime.now()`) lies in some period, with
inclusive comparisons on both bounds. The clock is the explicit argument
`currentMinutes`. -/
def is_in_periods (currentMinutes : Nat) (periods : List Period) : Bool :=
  periods.any fun p =>
    decide (p.vonMin ≤ currentMinutes) && decide (currentMinutes ≤ p.bisMin)

/-- `get_active_periods` (time_utils.py:32-39): pick the weekend/holiday or
weekday set; an empty list is falsy in Python, so `weekend_periods or
_FALLBACK` falls back to the default on an empty list. -/
def get_active_periods (isWeekendOrHoliday : Bool)
    (allowed_periods weekend_periods : List Period) : List Period :=
  if isWeekendOrHoliday then
    if weekend_periods.isEmpty then fallbackPeriods else weekend_periods
  else
    if allowed_periods.isEmpty then fallbackPeriods else allowed_periods

/-- A nullable periods column: `none` models a NULL/empty string column, for
which `json.loads(child["allowed_periods"] or _FALLBACK)` (sessions.py:60)
yields the default interval. -/
def load_periods : Option (List Period) → List Period
  | none => fallbackPeriods
  | some l => l

/-! ## Data model (database.py schema, as used by the handlers)

The `name`, `pin_hash` and `avatar` columns of `children` are omitted: the
spec places PIN credentials and UI concerns outside the verified core, and
no claim touches them. -/

/-- A row of the `children` table. -/
structure Child where
  id : Nat
  switch_coins : Int
  tv_coins : Int
  switch_coins_weekly : Int
  tv_coins_weekly : Int
  switch_coins_max : Int
  tv_coins_max : Int
  pocket_money_cents : Int
  pocket_money_weekly_cents : Int
  allowed_periods : Option (List Period)
  weekend_periods : Option (List Period)
deriving DecidableEq, Repr

/-- The per-category balance column `f"{type}_coins"`. -/
def Child.coins (c : Child) : DType → Int
  | .switch => c.switch_coins
  | .tv => c.tv_coins

/-- The per-category cap column `f"{type}_coins_max"`. -/
def Child.coinsMax (c : Child) : DType → Int
  | .switch => c.switch_coins_max
  | .tv => c.tv_coins_max

/-- The per-category weekly refill column `f"{type}_coins_weekly"`. -/
def Child.coinsWeekly (c : Child) : DType → Int
  | .switch => c.switch_coins_weekly
  | .tv => c.tv_coins_weekly

/-- Write the per-category balance column. -/
def Child.setCoins (c : Child) : DType → Int → Child
  | .switch, v => { c with switch_coins := v }
  | .tv, v => { c with tv_coins := v }

/-- A row of the `sessions` table. -/
structure Session where
  id : Nat
  child_id : Nat
  type : DType
  started_at : Int
  ends_at : Int
  coins_used : Int
  status : SStatus
deriving DecidableEq, Repr

/-- A row of the `coin_log` table. -/
structure CoinLogEntry where
  child_id : Nat
  type : DType
  delta : Int
  reason : String
  created_at : Int
deriving DecidableEq, Repr

/-- A row of the `pocket_money_log` table. -/
structure PocketLogEntry where
  child_id : Nat
  delta_cents : Int
  reason : String
  note : Option String
  created_at : Int
deriving DecidableEq, Repr

/-- A row of the `devices` table (the columns the session/scheduler paths
read; `identifier` and `control_type` are nullable). -/
structure Device where
  device_type : String
  control_type : Option String
  identifier : Option String
  is_active : Bool
deriving DecidableEq, Repr

/-- The persistent store. `next_session_id` models SQLite row-id
assignment (`cur.lastrowid`). -/
structure DB where
  children : List Child
  sessions : List Session
  coin_log : List CoinLogEntry
  pocket_money_log : List PocketLogEntry
  devices : List Device
  next_session_id : Nat
deriving DecidableEq, Repr

/-- `SELECT * FROM children WHERE id=?` followed by `fetchone` — first
matching row. -/
def findChild (db : DB) (cid : Nat) : Option Child :=
  db.children.find? fun c => decide (c.id = cid)

/-- `SELECT id FROM sessions WHERE child_id=? AND status='active'` with a
`fetchone` truthiness test (sessions.py:80-85). -/
def hasActiveSession (db : DB) (cid : Nat) : Bool :=
  db.sessions.any fun s => decide (s.child_id = cid ∧ s.status = SStatus.active)

/-- Python truthiness of a nullable string column under `or` — NULL and the
empty string both fall back to the default (`row["identifier"] or
"Fernseher"`, sessions.py:26). -/
def pyOr (s : Option String) (d : String) : String :=
  match s with
  | some v => if v = "" then d else v
  | none => d

/-! ## Adapter layer

`mikrotik_direct.tv_freigeben` / `tv_sperren` (mikrotik_direct.py:133-204)
and `nintendo.switch_freigeben` / `switch_sperren` (nintendo.py:52-102)
wrap their entire hardware interaction in `try/except Exception` and every
path returns a boolean, so each is modelled as a boolean oracle indexed by
its arguments. -/

/-- Result of calling a Python coroutine: a returned value, or a raised
exception carrying its message. -/
inductive PyResult (α : Type) where
  | ok : α → PyResult α
  | exn : String → PyResult α
deriving DecidableEq, Repr

/-- Hardware/network environment for the dispatcher-facing adapters. -/
structure HwEnv where
  mikrotik_freigeben : String → Bool
  mikrotik_sperren : String → Bool
  nintendo_freigeben : Int → Bool
  nintendo_sperren : Bool

/-- `adapters.tv_freigeben` (adapters/__init__.py:9-14). The "fritzbox"
branch executes `fritzbox.tv_freigeben(identifier, config)` — two
positional arguments — but `fritzbox.tv_freigeben` is declared with the
single parameter `identifier` (fritzbox.py:229), so in Python the call
itself raises `TypeError` before the adapter body (mock check included)
can run. `control_type` is an `Option` because `expire_sessions`
(scheduler.py:96) forwards a nullable column value. -/
def adapters_tv_freigeben (control_type : Option String) (identifier : String)
    (env : HwEnv) : PyResult Bool :=
  if control_type = some "fritzbox" then
    .exn "TypeError: tv_freigeben() takes 1 positional argument but 2 were given"
  else if control_type = some "mikrotik" then
    .ok (env.mikrotik_freigeben identifier)
  else
    .ok false

/-- `adapters.tv_sperren` (adapters/__init__.py:17-22); same arity mismatch
on the "fritzbox" branch (`fritzbox.tv_sperren`, fritzbox.py:242, takes one
parameter). -/
def adapters_tv_sperren (control_type : Option String) (identifier : String)
    (env : HwEnv) : PyResult Bool :=
  if control_type = some "fritzbox" then
    .exn "TypeError: tv_sperren() takes 1 positional argument but 2 were given"
  else if control_type = some "mikrotik" then
    .ok (env.mikrotik_sperren identifier)
  else
    .ok false

/-- `_get_tv_device` (sessions.py:20-27): first active TV device, with
defaults "Fernseher" / "fritzbox" applied via Python `or`. -/
def get_tv_device (devices : List Device) : String × String :=
  match devices.find? (fun d => d.device_type == "tv" && d.is_active) with
  | some d => (pyOr d.identifier "Fernseher", pyOr d.control_type "fritzbox")
  | none => ("Fernseher", "fritzbox")

/-- The post-commit hardware enable of `start_session` (sessions.py:115-120):
TV goes through the dispatcher with the configured device, Switch through
`nintendo.switch_freigeben(minutes=coins * 30)`. -/
def enable_hardware (devices : List Device) (env : HwEnv) (dt : DType)
    (coins : Int) : PyResult Bool :=
  match dt with
  | .tv =>
      let dev := get_tv_device devices
      adapters_tv_freigeben (some dev.2) dev.1 env
  | .switch => .ok (env.nintendo_freigeben (coins * 30))

/-! ## Request handlers -/

/-- Outcome of a request handler: a returned value, an
`HTTPException(status_code=...)`, or an uncaught Python exception
(FastAPI's 500 path). Error-message strings are not modelled. -/
inductive ReqResult (α : Type) where
  | ok : α → ReqResult α
  | httpError : Nat → ReqResult α
  | pyError : String → ReqResult α
deriving DecidableEq, Repr

/-- The `SessionStart` request body (models.py:64-67). `type` stays a raw
string exactly as validated by the handler. -/
structure SessionStart where
  child_id : Nat
  type : String
  coins : Int
deriving DecidableEq, Repr

/-- The membership test `body.type in ("switch", "tv")` combined with the
later string-keyed field selection `f"{body.type}_coins"`. -/
def parseDType : String → Option DType
  | "switch" => some DType.switch
  | "tv" => some DType.tv
  | _ => none

/-- The `SessionResponse` body (models.py:70-78). -/
structure SessionResponse where
  id : Nat
  child_id : Nat
  type : String
  started_at : Int
  ends_at : Int
  coins_used : Int
  status : SStatus
  hardware_ok : Bool
deriving DecidableEq, Repr

/-- `COIN_MINUTES = 30` (sessions.py:16). -/
def COIN_MINUTES : Int := 30

/-- `start_session` (sessions.py:34-137). Parameters beyond the body:
`now` — the request's wall-clock instant (the code reads the clock twice a
few microseconds apart at sessions.py:89/91; the embedding uses one
instant); `nowMin`/`isWH` — minutes since midnight and the weekend/holiday
classification feeding the time-window check; `sub` — the authenticated
child id from the token (`current["sub"]` is `str(child_id)`, so the
string comparison at sessions.py:41 is id equality); `env` — the hardware
oracle. Returns the committed database and the handler outcome; every
rejection happens before the first write, and the hardware call happens
after `db.commit()` (sessions.py:112), so a hardware exception leaves the
committed rows in place (`pyError`). -/
def start_session (db : DB) (now : Int) (nowMin : Nat) (isWH : Bool)
    (sub : Nat) (body : SessionStart) (env : HwEnv) :
    DB × ReqResult SessionResponse :=
  if sub ≠ body.child_id then (db, .httpError 403)
  else match parseDType body.type with
  | none => (db, .httpError 400)
  | some dt =>
    if body.coins < 1 then (db, .httpError 400)
    else if dt = DType.switch ∧ 2 < body.coins then (db, .httpError 400)
    else match findChild db body.child_id with
    | none => (db, .httpError 404)
    | some child =>
      if is_in_periods nowMin
          (get_active_periods isWH (load_periods child.allowed_periods)
            (load_periods child.weekend_periods)) = false then
        (db, .httpError 403)
      else if child.coins dt < body.coins then (db, .httpError 400)
      else if hasActiveSession db body.child_id then (db, .httpError 409)
      else
        let ends_at := now + body.coins * COIN_MINUTES
        let children' := db.children.map fun c =>
          if c.id = body.child_id then c.setCoins dt (c.coins dt - body.coins) else c
        let entry : CoinLogEntry :=
          ⟨body.child_id, dt, -body.coins, "session", now⟩
        let sess : Session :=
          ⟨db.next_session_id, body.child_id, dt, now, ends_at, body.coins,
            SStatus.active⟩
        let db' : DB :=
          { db with
            children := children'
            coin_log := db.coin_log ++ [entry]
            sessions := db.sessions ++ [sess]
            next_session_id := db.next_session_id + 1 }
        match enable_hardware db.devices env dt body.coins with
        | .ok b =>
            (db', .ok ⟨sess.id, body.child_id, body.type, now, ends_at,
              body.coins, SStatus.active, b⟩)
        | .exn m => (db', .pyError m)

/-- The `CoinAdjust` request body (models.py:81-84). -/
structure CoinAdjust where
  type : String
  delta : Int
  reason : String
deriving DecidableEq, Repr

/-- `admin_adjust_coins` (admin.py:143-171): clamp the balance into
`[0, max]` but log the *requested* delta `body.delta` with the supplied
reason. -/
def admin_adjust_coins (db : DB) (child_id : Nat) (body : CoinAdjust)
    (now : Int) : DB × ReqResult Int :=
  match parseDType body.type with
  | none => (db, .httpError 400)
  | some dt =>
    match findChild db child_id with
    | none => (db, .httpError 404)
    | some child =>
      let new_val := max 0 (min (child.coins dt + body.delta) (child.coinsMax dt))
      let children' := db.children.map fun c =>
        if c.id = child_id then c.setCoins dt new_val else c
      let entry : CoinLogEntry := ⟨child_id, dt, body.delta, body.reason, now⟩
      ({ db with children := children', coin_log := db.coin_log ++ [entry] },
        .ok new_val)

/-- The coin-related fields of the `ChildUpdate` request body
(models.py:47-57). -/
structure ChildUpdate where
  switch_coins : Option Int
  switch_coins_weekly : Option Int
  switch_coins_max : Option Int
  tv_coins : Option Int
  tv_coins_weekly : Option Int
  tv_coins_max : Option Int
  allowed_periods : Option (List Period)
  weekend_periods : Option (List Period)
deriving DecidableEq, Repr

/-- The field-by-field copy of `admin_update_child` (admin.py:95-117):
supplied values are written verbatim — no clamping against the caps.
(Note: admin.py:116 also reads `body.avatar`, a field absent from
models.py's `ChildUpdate`; the embedding models the handler's written
update logic for the coin and period fields.) -/
def applyChildUpdate (body : ChildUpdate) (c : Child) : Child :=
  { c with
    switch_coins := body.switch_coins.getD c.switch_coins
    switch_coins_weekly := body.switch_coins_weekly.getD c.switch_coins_weekly
    switch_coins_max := body.switch_coins_max.getD c.switch_coins_max
    tv_coins := body.tv_coins.getD c.tv_coins
    tv_coins_weekly := body.tv_coins_weekly.getD c.tv_coins_weekly
    tv_coins_max := body.tv_coins_max.getD c.tv_coins_max
    allowed_periods :=
      match body.allowed_periods with
      | some ps => some ps
      | none => c.allowed_periods
    weekend_periods :=
      match body.weekend_periods with
      | some ps => some ps
      | none => c.weekend_periods }

/-- `admin_update_child` (admin.py:83-127). -/
def admin_update_child (db : DB) (child_id : Nat) (body : ChildUpdate) :
    DB × ReqResult Unit :=
  match findChild db child_id with
  | none => (db, .httpError 404)
  | some _ =>
    let children' := db.children.map fun c =>
      if c.id = child_id then applyChildUpdate body c else c
    ({ db with children := children' }, .ok ())

/-! ## Scheduler (scheduler.py) -/

/-- The per-child balance update of `weekly_coin_refill`
(scheduler.py:29-43): `coins = min(coins + weekly, max)` per category,
pocket money added without a cap. -/
def refilled (c : Child) : Child :=
  { c with
    switch_coins := min (c.switch_coins + c.switch_coins_weekly) c.switch_coins_max
    tv_coins := min (c.tv_coins + c.tv_coins_weekly) c.tv_coins_max
    pocket_money_cents := c.pocket_money_cents + c.pocket_money_weekly_cents }

/-- The coin-ledger entries `weekly_coin_refill` inserts for one child
(scheduler.py:45-57): one per category, only when the delta is positive. -/
def refill_coin_logs (now : Int) (c : Child) : List CoinLogEntry :=
  let sd := min (c.switch_coins + c.switch_coins_weekly) c.switch_coins_max
    - c.switch_coins
  let td := min (c.tv_coins + c.tv_coins_weekly) c.tv_coins_max - c.tv_coins
  (if 0 < sd then [⟨c.id, DType.switch, sd, "weekly_refill", now⟩] else [])
    ++ (if 0 < td then [⟨c.id, DType.tv, td, "weekly_refill", now⟩] else [])

/-- The pocket-money ledger entries of `weekly_coin_refill`
(scheduler.py:58-62). -/
def refill_pocket_logs (now : Int) (c : Child) : List PocketLogEntry :=
  if 0 < c.pocket_money_weekly_cents then
    [⟨c.id, c.pocket_money_weekly_cents, "weekly_refill", none, now⟩]
  else []

/-- `weekly_coin_refill` (scheduler.py:20-65): one pass over all children,
then a single commit. -/
def weekly_coin_refill (db : DB) (now : Int) : DB :=
  { db with
    children := db.children.map refilled
    coin_log := db.coin_log ++ db.children.flatMap (refill_coin_logs now)
    pocket_money_log :=
      db.pocket_money_log ++ db.children.flatMap (refill_pocket_logs now) }

/-- The inline device lookup of `expire_sessions` (scheduler.py:91-96):
unlike `_get_tv_device`, a NULL `control_type` on an existing row is
forwarded as-is (`dev["control_type"] if dev else "mikrotik"`). -/
def expire_device_lookup (devices : List Device) : String × Option String :=
  match devices.find? (fun d => d.device_type == "tv" && d.is_active) with
  | some d => (pyOr d.identifier "Fernseher", d.control_type)
  | none => ("Fernseher", some "mikrotik")

/-- The per-session loop of `expire_sessions` (scheduler.py:78-99): mark the
row completed, then call the hardware disable. A raising disable call (the
dispatcher's fritzbox arity `TypeError`) aborts the coroutine before
`db.commit()` (scheduler.py:102); the connection closes and SQLite rolls
the updates back, so `.exn` means the store is left unchanged. -/
def expire_go (env : HwEnv) : List Session → DB → PyResult DB
  | [], db => .ok db
  | s :: rest, db =>
      let db' : DB :=
        { db with
          sessions := db.sessions.map fun t =>
            if t.id = s.id then { t with status := SStatus.completed } else t }
      let hw : PyResult Bool :=
        match s.type with
        | .tv =>
            let dev := expire_device_lookup db'.devices
            adapters_tv_sperren dev.2 dev.1 env
        | .switch => .ok env.nintendo_sperren
      match hw with
      | .ok _ => expire_go env rest db'
      | .exn m => .exn m

/-- `expire_sessions` (scheduler.py:68-102): select the active sessions with
`ends_at <= now`, complete each and disable its device, commit once at the
end. -/
def expire_sessions (db : DB) (now : Int) (env : HwEnv) : PyResult DB :=
  expire_go env
    (db.sessions.filter fun s =>
      decide (s.status = SStatus.active) && decide (s.ends_at ≤ now))
    db

/-! ## FritzBox adapter internals (fritzbox.py)

The per-HTTP-call details of `_login`, `_get_device_uid`, `_get_profile_id`
and `_set_profile` are abstracted to outcome oracles; the session-token
cache, its validity test and the retry loop of `_change_profile` are
modelled step by step, because the retry policy lives there. -/

/-- The sentinel "not logged in" SID (fritzbox.py:44, 87, 113). -/
def zeroSid : String := "0000000000000000"

/-- `_SID_TTL = 18 * 60` seconds (fritzbox.py:34). -/
def SID_TTL : Int := 18 * 60

/-- Outcome of one execution of the guarded mutation block of
`_change_profile` (fritzbox.py:199-224): the `try` body either resolves
both lookups and applies the profile (`success`), returns `False` because a
lookup came back empty (fritzbox.py:202-207), raises
`httpx.HTTPStatusError` with some status code (any of the
`raise_for_status` calls in `_get_device_uid`, `_get_profile_id`,
`_set_profile`), or raises some other exception. -/
inductive MutOutcome where
  | success
  | deviceNotFound
  | profileNotFound
  | httpStatusError : Nat → MutOutcome
  | otherException
deriving DecidableEq, Repr

/-- Environment of the fritzbox adapter: whether `FRITZBOX_PASS` is set
(fritzbox.py:76), the result of the k-th `_login` HTTP exchange — the
obtained non-sentinel SID, or `none` covering every path `_login` maps to
`None` (missing challenge, sentinel SID in the final response, raised
exception; fritzbox.py:74-125) — and the outcome of the k-th execution of
the mutation block. -/
structure FbEnv where
  pass_configured : Bool
  login : Nat → Option String
  mut_outcome : Nat → MutOutcome

/-- Adapter state: the module-level `_sid_cache` (`sid`, `expires_at`;
fritzbox.py:33), plus instrumentation counters recording how many `_login`
calls, mutation-block executions and `_invalidate_sid` calls have
happened — observable stand-ins for the log lines. -/
structure FbState where
  cache : Option (String × Int)
  login_calls : Nat
  mut_calls : Nat
  invalidate_calls : Nat
deriving DecidableEq, Repr

/-- `_sid_is_valid` (fritzbox.py:41-46): a cached SID counts only if
present, non-sentinel and unexpired. -/
def sid_is_valid (cache : Option (String × Int)) (now : Int) : Bool :=
  match cache with
  | some (s, exp) => decide (s ≠ zeroSid) && decide (now < exp)
  | none => false

/-- `_invalidate_sid` (fritzbox.py:49-50): `_sid_cache.clear()`. -/
def invalidate_sid (st : FbState) : FbState :=
  { st with cache := none, invalidate_calls := st.invalidate_calls + 1 }

/-- `_login` (fritzbox.py:74-125): fail fast if no password is configured;
otherwise the HTTP exchange either yields a usable SID, which is cached
with a fresh TTL (fritzbox.py:118-119), or fails (`none`) leaving the cache
untouched. -/
def fritz_login (env : FbEnv) (now : Int) (st : FbState) :
    Option String × FbState :=
  let st' := { st with login_calls := st.login_calls + 1 }
  if env.pass_configured = false then (none, st')
  else
    match env.login st.login_calls with
    | none => (none, st')
    | some sid => (some sid, { st' with cache := some (sid, now + SID_TTL) })

/-- `_get_sid` (fritzbox.py:128-132): reuse a valid cached SID unless a
refresh is forced; otherwise log in. -/
def get_sid (env : FbEnv) (now : Int) (force_refresh : Bool) (st : FbState) :
    Option String × FbState :=
  if force_refresh = false ∧ sid_is_valid st.cache now = true then
    (match st.cache with
     | some (s, _) => some s
     | none => none, st)
  else fritz_login env now st

/-- The `for attempt in range(2)` loop of `_change_profile`
(fritzbox.py:195-226), one list element per remaining attempt index: get a
SID (forcing a refresh from the second attempt on), run the mutation block;
a 403 `HTTPStatusError` on attempt 0 invalidates the cached SID and
continues, every other failure — a lookup miss, a non-403 status, any other
exception, or any failure on attempt 1 — returns `False`; falling out of
the loop returns `False` (fritzbox.py:226). -/
def change_profile_go (env : FbEnv) (now : Int) :
    List Nat → FbState → Bool × FbState
  | [], st => (false, st)
  | attempt :: rest, st =>
    let r := get_sid env now (decide (0 < attempt)) st
    match r.1 with
    | none => (false, r.2)
    | some _ =>
      let outcome := env.mut_outcome r.2.mut_calls
      let st1 := { r.2 with mut_calls := r.2.mut_calls + 1 }
      match outcome with
      | .success => (true, st1)
      | .deviceNotFound => (false, st1)
      | .profileNotFound => (false, st1)
      | .otherException => (false, st1)
      | .httpStatusError code =>
        if code = 403 ∧ attempt = 0 then
          change_profile_go env now rest (invalidate_sid st1)
        else (false, st1)

/-- `_change_profile` (fritzbox.py:193-226). -/
def change_profile (env : FbEnv) (now : Int) (st : FbState) : Bool × FbState :=
  change_profile_go env now [0, 1] st

/-! ## Stated invariants -/

/-- The spec's balance invariant for one identity:
`0 ≤ balance[category] ≤ max[category]` for both categories. -/
def BalancedChild (c : Child) : Prop :=
  0 ≤ c.switch_coins ∧ c.switch_coins ≤ c.switch_coins_max
    ∧ 0 ≤ c.tv_coins ∧ c.tv_coins ≤ c.tv_coins_max

instance (c : Child) : Decidable (BalancedChild c) := by
  unfold BalancedChild; infer_instance

/-- The balance invariant over the whole store. -/
def Balanced (db : DB) : Prop := ∀ c ∈ db.children, BalancedChild c

instance (db : DB) : Decidable (Balanced db) := by
  unfold Balanced; infer_instance

/-- Primary-key uniqueness of `children.id` (a SQLite `INTEGER PRIMARY
KEY`), which the row-set model does not enforce by construction. -/
def NodupIds (db : DB) : Prop := (db.children.map Child.id).Nodup

instance (db : DB) : Decidable (NodupIds db) := by
  unfold NodupIds; infer_instance

/-- Nonnegative configured weekly refill amounts. -/
def WeeklyNonneg (db : DB) : Prop :=
  ∀ c ∈ db.children, 0 ≤ c.switch_coins_weekly ∧ 0 ≤ c.tv_coins_weekly

instance (db : DB) : Decidable (WeeklyNonneg db) := by
  unfold WeeklyNonneg; infer_instance

/-! ## Concrete stores and environments for witnesses and counterexamples -/

/-- A child with some coins, default caps, default (NULL) time windows. -/
def exChild : Child :=
  { id := 1, switch_coins := 5, tv_coins := 3
    switch_coins_weekly := 2, tv_coins_weekly := 2
    switch_coins_max := 10, tv_coins_max := 10
    pocket_money_cents := 0, pocket_money_weekly_cents := 0
    allowed_periods := none, weekend_periods := none }

/-- A store with one child, no sessions, no devices. -/
def exDb : DB :=
  { children := [exChild], sessions := [], coin_log := []
    pocket_money_log := [], devices := [], next_session_id := 1 }

/-- Hardware oracles that always succeed. -/
def envOk : HwEnv :=
  { mikrotik_freigeben := fun _ => true, mikrotik_sperren := fun _ => true
    nintendo_freigeben := fun _ => true, nintendo_sperren := true }

/-- Hardware oracles that always fail (returning `False`, not raising). -/
def envFail : HwEnv :=
  { mikrotik_freigeben := fun _ => false, mikrotik_sperren := fun _ => false
    nintendo_freigeben := fun _ => false, nintendo_sperren := false }

/-- A start request: 2 coins on the console category. -/
def exBody : SessionStart := { child_id := 1, type := "switch", coins := 2 }

/-- An already-running session for `exChild`. -/
def exActiveSession : Session :=
  { id := 7, child_id := 1, type := DType.tv, started_at := 0, ends_at := 60
    coins_used := 2, status := SStatus.active }

/-- `exDb` with an active session for the same child. -/
def exDbActive : DB := { exDb with sessions := [exActiveSession] }

/-- A child whose configured weekly refill amount is negative, with an
in-bounds balance. -/
def negWeeklyChild : Child :=
  { exChild with switch_coins := 2, switch_coins_weekly := -5 }

/-- Store for the refill lower-bound counterexample. -/
def negWeeklyDb : DB := { exDb with children := [negWeeklyChild] }

/-- A child at the switch cap whose weekly amount is negative. -/
def capNegChild : Child :=
  { exChild with
    switch_coins := 10
    switch_coins_weekly := -3
    tv_coins := 10
    tv_coins_weekly := 0 }

/-- Store for the refill-at-cap counterexample. -/
def capNegDb : DB := { exDb with children := [capNegChild] }

/-- A coin adjustment whose requested delta overshoots the cap. -/
def overshootAdjust : CoinAdjust :=
  { type := "switch", delta := 5, reason := "admin_adjust" }

/-- A coin adjustment that stays inside the bounds (no clamping). -/
def plainAdjust : CoinAdjust :=
  { type := "switch", delta := 3, reason := "admin_adjust" }

/-- An update request that sets the switch balance to an in-range value. -/
def exUpdate : ChildUpdate :=
  { switch_coins := some 7, switch_coins_weekly := none
    switch_coins_max := none, tv_coins := none, tv_coins_weekly := none
    tv_coins_max := none, allowed_periods := none, weekend_periods := none }

/-- A child already at both caps, with nonnegative weekly amounts. -/
def capChild : Child := { exChild with switch_coins := 10, tv_coins := 10 }

/-- Store for the refill-at-cap witness. -/
def capDb : DB := { exDb with children := [capChild] }

/-- A child one coin below its switch cap. -/
def nearCapChild : Child := { exChild with switch_coins := 9 }

/-- Store for the clamped-adjustment counterexample. -/
def nearCapDb : DB := { exDb with children := [nearCapChild] }

/-- An active, fritzbox-controlled TV device row. -/
def fritzDevice : Device :=
  { device_type := "tv", control_type := some "fritzbox"
    identifier := some "Fernseher", is_active := true }

/-- An overdue active TV session. -/
def overdueTvSession : Session :=
  { id := 1, child_id := 1, type := DType.tv, started_at := 0, ends_at := 50
    coins_used := 2, status := SStatus.active }

/-- Store for the expiry-sweep failing input: one overdue active TV session
and a fritzbox-controlled TV device. -/
def overdueFritzDb : DB :=
  { exDb with
    sessions := [overdueTvSession]
    devices := [fritzDevice]
    next_session_id := 2 }

/-- Cold adapter state: empty SID cache, no calls made. -/
def coldState : FbState :=
  { cache := none, login_calls := 0, mut_calls := 0, invalidate_calls := 0 }

/-- FritzBox environment: logins succeed, first mutation hits a 403,
the retried mutation succeeds. -/
def fbEnv403 : FbEnv :=
  { pass_configured := true, login := fun _ => some "SID1"
    mut_outcome := fun k => if k = 0 then .httpStatusError 403 else .success }

/-- FritzBox environment: logins succeed, first mutation hits a 500. -/
def fbEnv500 : FbEnv :=
  { pass_configured := true, login := fun _ => some "SID1"
    mut_outcome := fun k => if k = 0 then .httpStatusError 500 else .success }

/-- FritzBox environment: logins succeed, mutations raise a non-HTTP
exception. -/
def fbEnvExn : FbEnv :=
  { pass_configured := true, login := fun _ => some "SID1"
    mut_outcome := fun _ => .otherException }

/-! ## Helper lemmas -/

/-- Writing a category's balance yields that value back. -/
theorem Child.coins_setCoins (c : Child) (dt : DType) (v : Int) :
    (c.setCoins dt v).coins dt = v := by
  cases dt <;> rfl

/-- Writing a balance does not change the row id. -/
theorem Child.id_setCoins (c : Child) (dt : DType) (v : Int) :
    (c.setCoins dt v).id = c.id := by
  cases dt <;> rfl

/-- Writing a balance does not change either cap. -/
theorem Child.coinsMax_setCoins (c : Child) (dt dt' : DType) (v : Int) :
    (c.setCoins dt v).coinsMax dt' = c.coinsMax dt' := by
  cases dt <;> cases dt' <;> rfl

/-- An id-preserving per-row update commutes with the id lookup. -/
theorem find?_id_map (l : List Child) (g : Child → Child) (cid : Nat)
    (hg : ∀ c, (g c).id = c.id) :
    (l.map g).find? (fun c => decide (c.id = cid))
      = (l.find? (fun c => decide (c.id = cid))).map g := by
  have hp : ((fun c => decide (c.id = cid)) ∘ g) = fun c => decide (c.id = cid) := by
    funext c
    simp [Function.comp, hg]
  rw [List.find?_map, hp]

/-- With unique ids, two rows sharing an id are the same row. -/
theorem eq_of_mem_of_same_id {l : List Child}
    (hnd : (l.map Child.id).Nodup) {a b : Child}
    (ha : a ∈ l) (hb : b ∈ l) (h : a.id = b.id) : a = b :=
  List.inj_on_of_nodup_map hnd ha hb h

/-- A found child row is in the table. -/
theorem findChild_mem {db : DB} {cid : Nat} {child : Child}
    (h : findChild db cid = some child) : child ∈ db.children := by
  unfold findChild at h
  exact List.mem_of_find?_eq_some h

/-- A found child row carries the looked-up id. -/
theorem findChild_id {db : DB} {cid : Nat} {child : Child}
    (h : findChild db cid = some child) : child.id = cid := by
  unfold findChild at h
  simpa using List.find?_some h

/-! ## Claim theorems -/

/-- C9: the containment check `is_in_periods` is inclusive on both bounds —
it returns true exactly when some configured interval `(start, end)`
satisfies `start ≤ t ≤ end` for the current time `t` in minutes since
midnight — and both fallback layers (NULL column in the route, empty list
for the applicable day class in `get_active_periods`) substitute the
default interval 08:00–20:00. -/
theorem time_window_inclusive_and_default :
    (∀ (t : Nat) (ps : List Period),
      is_in_periods t ps = true ↔ ∃ p ∈ ps, p.vonMin ≤ t ∧ t ≤ p.bisMin)
    ∧ (∀ allowed : List Period, get_active_periods true allowed [] = [⟨8, 0, 20, 0⟩])
    ∧ (∀ weekend : List Period, get_active_periods false [] weekend = [⟨8, 0, 20, 0⟩])
    ∧ load_periods none = [⟨8, 0, 20, 0⟩]
    ∧ (⟨8, 0, 20, 0⟩ : Period).vonMin = 8 * 60
    ∧ (⟨8, 0, 20, 0⟩ : Period).bisMin = 20 * 60 := by
  refine ⟨?_, ?_, ?_, rfl, rfl, rfl⟩
  · intro t ps
    simp [is_in_periods, List.any_eq_true]
  · intro allowed
    simp [get_active_periods, fallbackPeriods]
  · intro weekend
    simp [get_active_periods, fallbackPeriods]

/-- C5 (failing-input evaluation): a TV control call routed through the
adapter dispatcher for the configured control method "fritzbox" — the
default `_get_tv_device` assigns — does not return a boolean: the
dispatcher's call `fritzbox.tv_freigeben(identifier, config)`
(adapters/__init__.py:11, 19) passes two positional arguments to a
one-parameter function, so Python raises `TypeError` past the adapter
boundary. -/
theorem dispatcher_fritzbox_raises :
    adapters_tv_freigeben (some "fritzbox") "Fernseher" envOk
      = PyResult.exn
          "TypeError: tv_freigeben() takes 1 positional argument but 2 were given"
    ∧ adapters_tv_sperren (some "fritzbox") "Fernseher" envOk
      = PyResult.exn
          "TypeError: tv_sperren() takes 1 positional argument but 2 were given" :=
  ⟨rfl, rfl⟩

/-- C7 (failing-input evaluation): with one overdue active TV session and a
fritzbox-controlled TV device, the expiry sweep selects the session but the
hardware-disable call raises the dispatcher's arity `TypeError`, aborting
the sweep before `db.commit()` — the updates are rolled back and the
session stays active, instead of being transitioned to 'completed'. -/
theorem expire_sweep_fritzbox_aborts :
    overdueFritzDb.sessions.filter
        (fun s => decide (s.status = SStatus.active) && decide (s.ends_at ≤ (100 : Int)))
      = [overdueTvSession]
    ∧ overdueTvSession.status = SStatus.active
    ∧ expire_sessions overdueFritzDb 100 envOk
      = PyResult.exn
          "TypeError: tv_sperren() takes 1 positional argument but 2 were given" := by
  refine ⟨by decide, rfl, rfl⟩

/-- C2 (counterexample): from a store satisfying `0 ≤ balance ≤ max`, a
single weekly refill with a configured negative weekly amount (no endpoint
validates it) drives the balance to −3, so the invariant does not survive
every sequence of the listed operations. -/
theorem refill_negative_weekly_breaks_bounds :
    Balanced negWeeklyDb
    ∧ (weekly_coin_refill negWeeklyDb 0).children.map (fun c => c.switch_coins)
        = [-3]
    ∧ ¬ Balanced (weekly_coin_refill negWeeklyDb 0) := by
  exact ⟨by decide, by decide, by decide⟩

/-- C6 (counterexample): a refill at the cap is not a no-op when the
configured weekly amount is negative: the balance drops from the cap 10 to
7 (with no ledger entry, since the delta is not positive). -/
theorem refill_at_cap_changes_balance :
    capNegChild.switch_coins = capNegChild.switch_coins_max
    ∧ capNegDb.children.map (fun c => c.switch_coins) = [10]
    ∧ (weekly_coin_refill capNegDb 0).children.map (fun c => c.switch_coins) = [7]
    ∧ (weekly_coin_refill capNegDb 0).coin_log = capNegDb.coin_log := by
  exact ⟨by decide, by decide, by decide, by decide⟩

/-- C10 (counterexample): a manual adjustment of +5 on a balance of 9 with
cap 10 is clamped to a new balance of 10 — an applied change of +1 — yet
the appended ledger entry records delta 5 (`body.delta`, admin.py:168), so
the logged delta is not the actual balance change. -/
theorem adjust_logs_requested_delta :
    nearCapDb.children.map (fun c => c.switch_coins) = [9]
    ∧ nearCapChild.switch_coins_max = 10
    ∧ ((admin_adjust_coins nearCapDb 1 overshootAdjust 0).1.children.map
        fun c => c.switch_coins) = [10]
    ∧ ((admin_adjust_coins nearCapDb 1 overshootAdjust 0).1.coin_log.map
        fun e => e.delta) = [5]
    ∧ (5 : Int) ≠ 10 - 9 := by
  exact ⟨by decide, by decide, by decide, by decide, by decide⟩

/-- C1: once the request is authorized and the type, coin and time-window
checks pass, `start_session` answers HTTP 409 and writes nothing whenever
any session row for the identity already has status 'active'
(sessions.py:79-86), and when none exists the only session row it adds is
the single new 'active' row for that identity. -/
theorem start_session_exclusivity
    (db : DB) (now : Int) (nowMin : Nat) (isWH : Bool) (sub : Nat)
    (body : SessionStart) (env : HwEnv) (dt : DType) (child : Child)
    (h1 : sub = body.child_id)
    (h2 : parseDType body.type = some dt)
    (h3 : ¬ body.coins < 1)
    (h4 : ¬ (dt = DType.switch ∧ 2 < body.coins))
    (h5 : findChild db body.child_id = some child)
    (h6 : is_in_periods nowMin
        (get_active_periods isWH (load_periods child.allowed_periods)
          (load_periods child.weekend_periods)) = true)
    (h7 : ¬ child.coins dt < body.coins) :
    (hasActiveSession db body.child_id = true →
      start_session db now nowMin isWH sub body env = (db, ReqResult.httpError 409))
    ∧ (hasActiveSession db body.child_id = false →
      ∃ s : Session,
        (start_session db now nowMin isWH sub body env).1.sessions
          = db.sessions ++ [s]
        ∧ s.status = SStatus.active ∧ s.child_id = body.child_id) := by
  subst h1
  constructor
  · intro ha
    simp [start_session, h2, h3, h4, h5, h6, h7, ha]
  · intro ha
    cases hhw : enable_hardware db.devices env dt body.coins with
    | ok b =>
        simp [start_session, h2, h3, h4, h5, h6, h7, ha, hhw]
    | exn m =>
        simp [start_session, h2, h3, h4, h5, h6, h7, ha, hhw]

/-- C1 (witness): with the concrete store, a second start while a session
is active is answered 409 without writes, and a start with no active
session appends exactly one new active row. -/
theorem start_session_exclusivity_witness :
    start_session exDbActive 1000 600 false 1 exBody envOk
      = (exDbActive, ReqResult.httpError 409)
    ∧ ∃ s : Session,
        (start_session exDb 1000 600 false 1 exBody envOk).1.sessions
          = exDb.sessions ++ [s]
        ∧ s.status = SStatus.active ∧ s.child_id = exBody.child_id := by
  constructor
  · exact (start_session_exclusivity exDbActive 1000 600 false 1 exBody envOk
      DType.switch exChild rfl rfl (by decide) (by decide) (by decide)
      (by decide) (by decide)).1 (by decide)
  · exact (start_session_exclusivity exDb 1000 600 false 1 exBody envOk
      DType.switch exChild rfl rfl (by decide) (by decide) (by decide)
      (by decide) (by decide)).2 (by decide)

/-- C3: when every admission check passes and no session is active, a start
with `coins = N` debits exactly `N` from the requested category, appends
exactly one ledger entry with delta `-N` and reason "session", and inserts
exactly one session row with status 'active' and
`ends_at = now + N * 30` minutes — all in the one committed store
(sessions.py:88-112). -/
theorem start_session_roundtrip
    (db : DB) (now : Int) (nowMin : Nat) (isWH : Bool) (sub : Nat)
    (body : SessionStart) (env : HwEnv) (dt : DType) (child : Child)
    (h1 : sub = body.child_id)
    (h2 : parseDType body.type = some dt)
    (h3 : ¬ body.coins < 1)
    (h4 : ¬ (dt = DType.switch ∧ 2 < body.coins))
    (h5 : findChild db body.child_id = some child)
    (h6 : is_in_periods nowMin
        (get_active_periods isWH (load_periods child.allowed_periods)
          (load_periods child.weekend_periods)) = true)
    (h7 : ¬ child.coins dt < body.coins)
    (h8 : hasActiveSession db body.child_id = false) :
    (start_session db now nowMin isWH sub body env).1.coin_log
      = db.coin_log ++ [⟨body.child_id, dt, -body.coins, "session", now⟩]
    ∧ (start_session db now nowMin isWH sub body env).1.sessions
      = db.sessions ++ [⟨db.next_session_id, body.child_id, dt, now,
          now + body.coins * COIN_MINUTES, body.coins, SStatus.active⟩]
    ∧ ((findChild (start_session db now nowMin isWH sub body env).1
          body.child_id).map fun c => c.coins dt)
      = some (child.coins dt - body.coins) := by
  subst h1
  have hgid : ∀ c : Child,
      ((fun c => if c.id = body.child_id
          then c.setCoins dt (c.coins dt - body.coins) else c) c).id = c.id := by
    intro c
    by_cases hc : c.id = body.child_id <;> simp [hc, Child.id_setCoins]
  have hchid : child.id = body.child_id := by
    have hfs := List.find?_some h5
    exact of_decide_eq_true hfs
  cases hhw : enable_hardware db.devices env dt body.coins with
  | ok b =>
      refine ⟨?_, ?_, ?_⟩
      · simp [start_session, h2, h3, h4, h5, h6, h7, h8, hhw]
      · simp [start_session, h2, h3, h4, h5, h6, h7, h8, hhw]
      · simp only [start_session, h2, h3, h4, h5, h6, h7, h8, hhw]
        simp [findChild, h2, h3, h4, h5, h6, h7, h8, hhw,
          find?_id_map _ _ _ hgid]
        have h5' : db.children.find? (fun c => decide (c.id = body.child_id))
            = some child := h5
        rw [h5']
        simp [hchid, Child.coins_setCoins]
  | exn m =>
      refine ⟨?_, ?_, ?_⟩
      · simp [start_session, h2, h3, h4, h5, h6, h7, h8, hhw]
      · simp [start_session, h2, h3, h4, h5, h6, h7, h8, hhw]
      · simp only [start_session, h2, h3, h4, h5, h6, h7, h8, hhw]
        simp [findChild, h2, h3, h4, h5, h6, h7, h8, hhw,
          find?_id_map _ _ _ hgid]
        have h5' : db.children.find? (fun c => decide (c.id = body.child_id))
            = some child := h5
        rw [h5']
        simp [hchid, Child.coins_setCoins]

/-- C3 (witness): the concrete 2-coin console start debits 5 → 3, appends
the −2 "session" entry and the active row ending at 1000 + 60. -/
theorem start_session_roundtrip_witness :
    (start_session exDb 1000 600 false 1 exBody envOk).1.coin_log
      = exDb.coin_log ++ [⟨exBody.child_id, DType.switch, -exBody.coins,
          "session", 1000⟩]
    ∧ (start_session exDb 1000 600 false 1 exBody envOk).1.sessions
      = exDb.sessions ++ [⟨exDb.next_session_id, exBody.child_id,
          DType.switch, 1000, 1000 + exBody.coins * COIN_MINUTES,
          exBody.coins, SStatus.active⟩]
    ∧ ((findChild (start_session exDb 1000 600 false 1 exBody envOk).1
          exBody.child_id).map fun c => c.coins DType.switch)
      = some (exChild.coins DType.switch - exBody.coins) :=
  start_session_roundtrip exDb 1000 600 false 1 exBody envOk
    DType.switch exChild rfl rfl (by decide) (by decide) (by decide)
    (by decide) (by decide) (by decide)

/-- C4: when the post-commit device-enable call returns `False`, nothing is
rolled back — the response is the normal 200 body with the advisory flag
`hardware_ok = false`, the new session row is present and 'active', the
debit and ledger entry stand, and the committed store is the same one a
successful enable would have produced (sessions.py:112-137). -/
theorem start_session_hw_advisory
    (db : DB) (now : Int) (nowMin : Nat) (isWH : Bool) (sub : Nat)
    (body : SessionStart) (env : HwEnv) (dt : DType) (child : Child)
    (h1 : sub = body.child_id)
    (h2 : parseDType body.type = some dt)
    (h3 : ¬ body.coins < 1)
    (h4 : ¬ (dt = DType.switch ∧ 2 < body.coins))
    (h5 : findChild db body.child_id = some child)
    (h6 : is_in_periods nowMin
        (get_active_periods isWH (load_periods child.allowed_periods)
          (load_periods child.weekend_periods)) = true)
    (h7 : ¬ child.coins dt < body.coins)
    (h8 : hasActiveSession db body.child_id = false)
    (hhw : enable_hardware db.devices env dt body.coins = PyResult.ok false) :
    (start_session db now nowMin isWH sub body env).2
      = ReqResult.ok ⟨db.next_session_id, body.child_id, body.type, now,
          now + body.coins * COIN_MINUTES, body.coins, SStatus.active, false⟩
    ∧ (start_session db now nowMin isWH sub body env).1.sessions
      = db.sessions ++ [⟨db.next_session_id, body.child_id, dt, now,
          now + body.coins * COIN_MINUTES, body.coins, SStatus.active⟩]
    ∧ (start_session db now nowMin isWH sub body env).1.coin_log
      = db.coin_log ++ [⟨body.child_id, dt, -body.coins, "session", now⟩]
    ∧ ∀ env' : HwEnv,
        enable_hardware db.devices env' dt body.coins = PyResult.ok true →
        (start_session db now nowMin isWH sub body env').1
          = (start_session db now nowMin isWH sub body env).1 := by
  subst h1
  refine ⟨?_, ?_, ?_, ?_⟩
  · simp [start_session, h2, h3, h4, h5, h6, h7, h8, hhw]
  · simp [start_session, h2, h3, h4, h5, h6, h7, h8, hhw]
  · simp [start_session, h2, h3, h4, h5, h6, h7, h8, hhw]
  · intro env' hhw'
    simp [start_session, h2, h3, h4, h5, h6, h7, h8, hhw, hhw']

/-- C4 (witness): with hardware oracles that fail, the concrete start is
still committed and billed, with `hardware_ok = false` in the response. -/
theorem start_session_hw_advisory_witness :
    (start_session exDb 1000 600 false 1 exBody envFail).2
      = ReqResult.ok ⟨exDb.next_session_id, exBody.child_id, exBody.type,
          1000, 1000 + exBody.coins * COIN_MINUTES, exBody.coins,
          SStatus.active, false⟩
    ∧ (start_session exDb 1000 600 false 1 exBody envFail).1.sessions
      = exDb.sessions ++ [⟨exDb.next_session_id, exBody.child_id,
          DType.switch, 1000, 1000 + exBody.coins * COIN_MINUTES,
          exBody.coins, SStatus.active⟩]
    ∧ (start_session exDb 1000 600 false 1 exBody envFail).1.coin_log
      = exDb.coin_log ++ [⟨exBody.child_id, DType.switch, -exBody.coins,
          "session", 1000⟩]
    ∧ ∀ env' : HwEnv,
        enable_hardware exDb.devices env' DType.switch exBody.coins
          = PyResult.ok true →
        (start_session exDb 1000 600 false 1 exBody env').1
          = (start_session exDb 1000 600 false 1 exBody envFail).1 :=
  start_session_hw_advisory exDb 1000 600 false 1 exBody envFail
    DType.switch exChild rfl rfl (by decide) (by decide) (by decide)
    (by decide) (by decide) (by decide) (by decide)

/-- C2 (amended): session-start debit, weekly refill under nonnegative
configured weekly amounts, and admin coin adjustment each preserve
`0 ≤ balance ≤ max` in every category (given unique child ids), and a
refill never raises a balance above its cap; the admin update endpoint
writes the supplied balance and cap values verbatim, so it preserves the
bounds exactly when the supplied values respect them. -/
theorem balance_bounds_amended :
    (∀ (db : DB) (now : Int) (nowMin : Nat) (isWH : Bool) (sub : Nat)
        (body : SessionStart) (env : HwEnv),
      Balanced db → NodupIds db →
      Balanced (start_session db now nowMin isWH sub body env).1)
    ∧ (∀ c : Child, (refilled c).switch_coins ≤ c.switch_coins_max
        ∧ (refilled c).tv_coins ≤ c.tv_coins_max)
    ∧ (∀ (db : DB) (now : Int), Balanced db → WeeklyNonneg db →
        Balanced (weekly_coin_refill db now))
    ∧ (∀ (db : DB) (cid : Nat) (body : CoinAdjust) (now : Int),
        Balanced db → NodupIds db →
        Balanced (admin_adjust_coins db cid body now).1)
    ∧ (∀ (db : DB) (cid : Nat) (body : ChildUpdate) (child : Child),
        Balanced db → NodupIds db → findChild db cid = some child →
        0 ≤ body.switch_coins.getD child.switch_coins →
        body.switch_coins.getD child.switch_coins
          ≤ body.switch_coins_max.getD child.switch_coins_max →
        0 ≤ body.tv_coins.getD child.tv_coins →
        body.tv_coins.getD child.tv_coins
          ≤ body.tv_coins_max.getD child.tv_coins_max →
        Balanced (admin_update_child db cid body).1) := by
  refine ⟨?_, ?_, ?_, ?_, ?_⟩
  · -- start_session
    intro db now nowMin isWH sub body env hB hN
    simp only [start_session]
    split
    · exact hB
    split
    · exact hB
    rename_i dt hdt
    split
    · exact hB
    split
    · exact hB
    split
    · exact hB
    rename_i child hchild
    split
    · exact hB
    split
    · exact hB
    rename_i hbal
    split
    · exact hB
    have hmem : child ∈ db.children := findChild_mem hchild
    have hcid : child.id = body.child_id := findChild_id hchild
    have hBc := hB child hmem
    split <;>
    · intro c' hc'
      simp only [List.mem_map] at hc'
      obtain ⟨c, hc, rfl⟩ := hc'
      by_cases hid : c.id = body.child_id
      · have hceq : c = child :=
          eq_of_mem_of_same_id hN hc hmem (hid.trans hcid.symm)
        subst hceq
        simp only [if_pos hid]
        obtain ⟨b1, b2, b3, b4⟩ := hBc
        rename_i hcoins _ _
        cases dt <;>
          simp_all [Child.setCoins, Child.coins, BalancedChild] <;> omega
      · simp only [if_neg hid]
        exact hB c hc
  · -- refill never exceeds the cap
    intro c
    refine ⟨?_, ?_⟩ <;> simp [refilled]
  · -- refill preserves the bounds when weekly amounts are nonnegative
    intro db now hB hW
    intro c' hc'
    simp only [weekly_coin_refill, List.mem_map] at hc'
    obtain ⟨c, hc, rfl⟩ := hc'
    obtain ⟨b1, b2, b3, b4⟩ := hB c hc
    obtain ⟨w1, w2⟩ := hW c hc
    refine ⟨?_, ?_, ?_, ?_⟩ <;> simp [refilled] <;> omega
  · -- admin coin adjustment
    intro db cid body now hB hN
    simp only [admin_adjust_coins]
    split
    · exact hB
    rename_i dt hdt
    split
    · exact hB
    rename_i child hchild
    have hmem : child ∈ db.children := findChild_mem hchild
    have hcid : child.id = cid := findChild_id hchild
    have hBc := hB child hmem
    intro c' hc'
    simp only [List.mem_map] at hc'
    obtain ⟨c, hc, rfl⟩ := hc'
    by_cases hid : c.id = cid
    · have hceq : c = child :=
        eq_of_mem_of_same_id hN hc hmem (hid.trans hcid.symm)
      subst hceq
      simp only [if_pos hid]
      obtain ⟨b1, b2, b3, b4⟩ := hBc
      cases dt <;>
        simp_all [Child.setCoins, Child.coins, Child.coinsMax, BalancedChild] <;>
        omega
    · simp only [if_neg hid]
      exact hB c hc
  · -- admin update with in-range supplied values
    intro db cid body child hB hN hchild u1 u2 u3 u4
    simp only [admin_update_child]
    split
    · exact hB
    rename_i child₀ hchild₀
    have hc0 : child₀ = child := by
      rw [hchild] at hchild₀
      exact (Option.some_inj.mp hchild₀).symm
    subst hc0
    have hmem : child₀ ∈ db.children := findChild_mem hchild₀
    intro c' hc'
    simp only [List.mem_map] at hc'
    obtain ⟨c, hc, rfl⟩ := hc'
    by_cases hid : c.id = cid
    · have hcid : child₀.id = cid := findChild_id hchild₀
      have hceq : c = child₀ :=
        eq_of_mem_of_same_id hN hc hmem (hid.trans hcid.symm)
      subst hceq
      simp only [if_pos hid]
      exact ⟨u1, u2, u3, u4⟩
    · simp only [if_neg hid]
      exact hB c hc

/-- C2 (witness): each preserved operation applied to the concrete
in-bounds store keeps the invariant. -/
theorem balance_bounds_amended_witness :
    Balanced (start_session exDb 1000 600 false 1 exBody envOk).1
    ∧ ((refilled exChild).switch_coins ≤ exChild.switch_coins_max
        ∧ (refilled exChild).tv_coins ≤ exChild.tv_coins_max)
    ∧ Balanced (weekly_coin_refill exDb 0)
    ∧ Balanced (admin_adjust_coins exDb 1 overshootAdjust 0).1
    ∧ Balanced (admin_update_child exDb 1 exUpdate).1 := by
  obtain ⟨p1, p2, p3, p4, p5⟩ := balance_bounds_amended
  exact ⟨p1 exDb 1000 600 false 1 exBody envOk (by decide) (by decide),
    p2 exChild,
    p3 exDb 0 (by decide) (by decide),
    p4 exDb 1 overshootAdjust 0 (by decide) (by decide),
    p5 exDb 1 exUpdate exChild (by decide) (by decide) (by decide)
      (by decide) (by decide) (by decide) (by decide)⟩

/-- C6 (amended): the weekly refill sets each balance to
`min(balance + weekly, max)` and appends a 'weekly_refill' coin-ledger
entry only when the resulting delta is positive; consequently, when the
configured weekly amounts are nonnegative, running the refill with every
balance at its cap leaves all coin balances unchanged and appends no
coin-ledger entry. -/
theorem weekly_refill_formula_and_cap :
    (∀ c : Child,
      (refilled c).switch_coins
        = min (c.switch_coins + c.switch_coins_weekly) c.switch_coins_max
      ∧ (refilled c).tv_coins
        = min (c.tv_coins + c.tv_coins_weekly) c.tv_coins_max)
    ∧ (∀ (now : Int) (c : Child) (e : CoinLogEntry),
        e ∈ refill_coin_logs now c → 0 < e.delta ∧ e.reason = "weekly_refill")
    ∧ (∀ (db : DB) (now : Int),
        (∀ c ∈ db.children,
          0 ≤ c.switch_coins_weekly ∧ 0 ≤ c.tv_coins_weekly
            ∧ c.switch_coins = c.switch_coins_max
            ∧ c.tv_coins = c.tv_coins_max) →
        (weekly_coin_refill db now).coin_log = db.coin_log
        ∧ (weekly_coin_refill db now).children.map
            (fun c => (c.switch_coins, c.tv_coins))
          = db.children.map fun c => (c.switch_coins, c.tv_coins)) := by
  refine ⟨fun c => ⟨rfl, rfl⟩, ?_, ?_⟩
  · intro now c e he
    simp only [refill_coin_logs, List.mem_append] at he
    rcases he with he | he <;>
    · split at he
      · simp only [List.mem_singleton] at he
        subst he
        rename_i hpos
        exact ⟨hpos, rfl⟩
      · simp at he
  · intro db now h
    have hnil : db.children.flatMap (refill_coin_logs now) = [] := by
      rw [List.flatMap_eq_nil_iff]
      intro c hc
      obtain ⟨w1, w2, cap1, cap2⟩ := h c hc
      simp only [refill_coin_logs]
      rw [if_neg (by omega), if_neg (by omega)]
      rfl
    constructor
    · simp only [weekly_coin_refill, hnil, List.append_nil]
    · simp only [weekly_coin_refill, List.map_map]
      apply List.map_congr_left
      intro c hc
      obtain ⟨w1, w2, cap1, cap2⟩ := h c hc
      simp only [Function.comp, refilled]
      rw [Prod.mk.injEq]
      constructor <;> omega

/-- C6 (witness): with both balances at the cap and nonnegative weekly
amounts, the refill changes no coin balance and writes no coin-ledger
entry; the formula and positive-delta parts are instantiated on the
sample child. -/
theorem weekly_refill_formula_and_cap_witness :
    ((refilled exChild).switch_coins
        = min (exChild.switch_coins + exChild.switch_coins_weekly)
            exChild.switch_coins_max
      ∧ (refilled exChild).tv_coins
        = min (exChild.tv_coins + exChild.tv_coins_weekly)
            exChild.tv_coins_max)
    ∧ (0 < (⟨1, DType.switch, 2, "weekly_refill", 0⟩ : CoinLogEntry).delta
        ∧ (⟨1, DType.switch, 2, "weekly_refill", 0⟩ : CoinLogEntry).reason
          = "weekly_refill")
    ∧ ((weekly_coin_refill capDb 0).coin_log = capDb.coin_log
        ∧ (weekly_coin_refill capDb 0).children.map
            (fun c => (c.switch_coins, c.tv_coins))
          = capDb.children.map fun c => (c.switch_coins, c.tv_coins)) := by
  obtain ⟨p1, p2, p3⟩ := weekly_refill_formula_and_cap
  exact ⟨p1 exChild,
    p2 0 exChild ⟨1, DType.switch, 2, "weekly_refill", 0⟩ (by decide),
    p3 capDb 0 (by decide)⟩

/-- C10 (amended): the ledger entry appended by a manual admin adjustment
records the requested delta with the supplied reason; whenever the request
is not clamped — `0 ≤ balance + delta ≤ max` — that logged delta equals
the actual balance change (new balance minus old balance). -/
theorem adjust_ledger_delta_unclamped
    (db : DB) (cid : Nat) (body : CoinAdjust) (now : Int) (dt : DType)
    (child : Child)
    (hdt : parseDType body.type = some dt)
    (hchild : findChild db cid = some child)
    (hlo : 0 ≤ child.coins dt + body.delta)
    (hhi : child.coins dt + body.delta ≤ child.coinsMax dt) :
    (admin_adjust_coins db cid body now).1.coin_log
      = db.coin_log ++ [⟨cid, dt, body.delta, body.reason, now⟩]
    ∧ ((findChild (admin_adjust_coins db cid body now).1 cid).map
        fun c => c.coins dt)
      = some (child.coins dt + body.delta) := by
  have hclamp : max 0 (min (child.coins dt + body.delta) (child.coinsMax dt))
      = child.coins dt + body.delta := by omega
  have hgid : ∀ c : Child,
      ((fun c => if c.id = cid
          then c.setCoins dt
            (max 0 (min (child.coins dt + body.delta) (child.coinsMax dt)))
          else c) c).id = c.id := by
    intro c
    by_cases hc : c.id = cid <;> simp [hc, Child.id_setCoins]
  have hcid : child.id = cid := findChild_id hchild
  constructor
  · simp [admin_adjust_coins, hdt, hchild]
  · simp only [admin_adjust_coins, hdt, hchild]
    simp only [findChild]
    rw [find?_id_map _ _ _ hgid]
    have hchild' : db.children.find? (fun c => decide (c.id = cid))
        = some child := hchild
    rw [hchild']
    simp [hcid, Child.coins_setCoins, hclamp]

/-- C10 (witness): an in-range +3 adjustment on balance 5 (cap 10) logs
delta 3 and moves the balance to 8 = 5 + 3. -/
theorem adjust_ledger_delta_unclamped_witness :
    (admin_adjust_coins exDb 1 plainAdjust 0).1.coin_log
      = exDb.coin_log ++ [⟨1, DType.switch, plainAdjust.delta,
          plainAdjust.reason, 0⟩]
    ∧ ((findChild (admin_adjust_coins exDb 1 plainAdjust 0).1 1).map
        fun c => c.coins DType.switch)
      = some (exChild.coins DType.switch + plainAdjust.delta) :=
  adjust_ledger_delta_unclamped exDb 1 plainAdjust 0 DType.switch exChild
    rfl (by decide) (by decide) (by decide)

/-- C8: starting from a cold token cache with the password configured and
logins succeeding, a 403 authorization failure during the first mutation
attempt invalidates the cached session token (one `_invalidate_sid` call),
performs a fresh authentication (a second `_login` despite the first token
still being within its TTL), and retries the mutation exactly once — two
mutation-block executions in total — returning true exactly when the
retried mutation succeeds and false otherwise (so a 403 on the second
attempt also yields false with no third attempt); a non-403 HTTP error or
a non-HTTP exception on the first attempt is not retried: one
mutation-block execution, no invalidation, result false. -/
theorem fritz_retry_policy :
    (∀ (env : FbEnv) (now : Int),
      env.pass_configured = true →
      (∀ k, ∃ s, env.login k = some s) →
      env.mut_outcome 0 = MutOutcome.httpStatusError 403 →
      ((change_profile env now coldState).1 = true
          ↔ env.mut_outcome 1 = MutOutcome.success)
        ∧ (change_profile env now coldState).2.mut_calls = 2
        ∧ (change_profile env now coldState).2.invalidate_calls = 1
        ∧ (change_profile env now coldState).2.login_calls = 2)
    ∧ (∀ (env : FbEnv) (now : Int) (code : Nat),
      env.pass_configured = true →
      (∀ k, ∃ s, env.login k = some s) →
      env.mut_outcome 0 = MutOutcome.httpStatusError code → code ≠ 403 →
      (change_profile env now coldState).1 = false
        ∧ (change_profile env now coldState).2.mut_calls = 1
        ∧ (change_profile env now coldState).2.invalidate_calls = 0)
    ∧ (∀ (env : FbEnv) (now : Int),
      env.pass_configured = true →
      (∀ k, ∃ s, env.login k = some s) →
      env.mut_outcome 0 = MutOutcome.otherException →
      (change_profile env now coldState).1 = false
        ∧ (change_profile env now coldState).2.mut_calls = 1
        ∧ (change_profile env now coldState).2.invalidate_calls = 0) := by
  refine ⟨?_, ?_, ?_⟩
  · intro env now hp hl hm0
    obtain ⟨s0, hs0⟩ := hl 0
    obtain ⟨s1, hs1⟩ := hl 1
    cases hm1 : env.mut_outcome 1 <;>
      simp [change_profile, change_profile_go, get_sid, fritz_login,
        sid_is_valid, invalidate_sid, coldState, hp, hs0, hs1, hm0, hm1]
  · intro env now code hp hl hm0 hcode
    obtain ⟨s0, hs0⟩ := hl 0
    simp [change_profile, change_profile_go, get_sid, fritz_login,
      sid_is_valid, invalidate_sid, coldState, hp, hs0, hm0, hcode]
  · intro env now hp hl hm0
    obtain ⟨s0, hs0⟩ := hl 0
    simp [change_profile, change_profile_go, get_sid, fritz_login,
      sid_is_valid, invalidate_sid, coldState, hp, hs0, hm0]

/-- C8 (witness): concrete environments — 403 then success (retried once,
token invalidated, fresh login, overall success), first attempt 500 (no
retry), and a non-HTTP exception (no retry). -/
theorem fritz_retry_policy_witness :
    ((change_profile fbEnv403 0 coldState).1 = true
      ∧ (change_profile fbEnv403 0 coldState).2.mut_calls = 2
      ∧ (change_profile fbEnv403 0 coldState).2.invalidate_calls = 1
      ∧ (change_profile fbEnv403 0 coldState).2.login_calls = 2)
    ∧ ((change_profile fbEnv500 0 coldState).1 = false
      ∧ (change_profile fbEnv500 0 coldState).2.mut_calls = 1
      ∧ (change_profile fbEnv500 0 coldState).2.invalidate_calls = 0)
    ∧ ((change_profile fbEnvExn 0 coldState).1 = false
      ∧ (change_profile fbEnvExn 0 coldState).2.mut_calls = 1
      ∧ (change_profile fbEnvExn 0 coldState).2.invalidate_calls = 0) := by
  obtain ⟨pA, pB, pC⟩ := fritz_retry_policy
  have hA := pA fbEnv403 0 rfl (fun k => ⟨"SID1", rfl⟩) (by decide)
  have hB := pB fbEnv500 0 500 rfl (fun k => ⟨"SID1", rfl⟩) (by decide)
    (by decide)
  have hC := pC fbEnvExn 0 rfl (fun k => ⟨"SID1", rfl⟩) rfl
  exact ⟨⟨hA.1.mpr (by decide), hA.2.1, hA.2.2.1, hA.2.2.2⟩, hB, hC⟩

end Muenzbox
